import Mathlib

/-!
Verification of the Safety-PROS device-check helper (src/safety.h).

The host device-query interface is modelled as a function from ports to
device kinds; the supervisor additionally sees a scan-indexed host so that
the kind reported at a port may change between polls.  Each definition in
the `safety` namespace is a direct translation of the function of the same
name in src/safety.h.
-/

/-- The closed DeviceType enumeration of the host API, plus a constructor
standing for any synthesized value outside the closed enumeration. -/
inductive DeviceType where
  | none
  | undefined
  | motor
  | rotation
  | imu
  | radio
  | distance
  | vision
  | adi
  | optical
  | gps
  | serial
  | other (code : Nat)
deriving DecidableEq

/-- The host device-query interface: plugged_kind per integer port. -/
def Host : Type := Int → DeviceType

/-- A device handle exposes its port. -/
structure Device where
  port : Int
deriving DecidableEq

namespace safety

/-- Translation of safety::isPluggedIn: true unless the plugged type is
none or undefined. -/
def isPluggedIn (host : Host) (port : Int) : Bool :=
  !((host port == DeviceType.none) || (host port == DeviceType.undefined))

/-- Translation of safety::isMotor. -/
def isMotor (host : Host) (port : Int) : Bool :=
  host port == DeviceType.motor

/-- Translation of safety::isImu. -/
def isImu (host : Host) (port : Int) : Bool :=
  host port == DeviceType.imu

/-- Translation of safety::isRadio. -/
def isRadio (host : Host) (port : Int) : Bool :=
  host port == DeviceType.radio

/-- Translation of safety::isRotation. -/
def isRotation (host : Host) (port : Int) : Bool :=
  host port == DeviceType.rotation

/-- Translation of safety::checkMotorGroup: for each port of the group, in
order, push the port when it is not a motor, and push it again, under the
separate second branch, when it is plugged in. -/
def checkMotorGroup (host : Host) : List Int → List Int
  | [] => []
  | port :: rest =>
    ((if !(isMotor host port) then [port] else [])
      ++ (if isPluggedIn host port then [port] else []))
      ++ checkMotorGroup host rest

/-- Translation of safety::checkImu. -/
def checkImu (host : Host) (port : Int) : Bool :=
  (host port == DeviceType.imu) && isPluggedIn host port

/-- Translation of safety::checkDevices: ports of the devices that are not
plugged in, in input order. -/
def checkDevices (host : Host) : List Device → List Int
  | [] => []
  | d :: rest =>
    (if !(isPluggedIn host d.port) then [d.port] else []) ++ checkDevices host rest

/-- Translation of safety::deviceType_to_string: the closed switch over the
enumeration, with the default case returning "unknown". -/
def deviceType_to_string : DeviceType → String
  | DeviceType.none => "none"
  | DeviceType.undefined => "undefined"
  | DeviceType.motor => "motor"
  | DeviceType.rotation => "rotation"
  | DeviceType.imu => "imu"
  | DeviceType.radio => "radio"
  | DeviceType.distance => "distance"
  | DeviceType.vision => "vision"
  | DeviceType.adi => "adi"
  | DeviceType.optical => "optical"
  | DeviceType.gps => "gps"
  | DeviceType.serial => "serial"
  | DeviceType.other _ => "unknown"

/-- Translation of safety::print_unplugged_devices: accumulate, for each
device that is plugged in, the line "(kind): (port),\n". -/
def print_unplugged_devices (host : Host) : List Device → String
  | [] => ""
  | d :: rest =>
    (if isPluggedIn host d.port then
      deviceType_to_string (host d.port) ++ ": " ++ toString d.port ++ ",\n"
    else "") ++ print_unplugged_devices host rest

end safety

/-- Observable actions of a supervisor run: a presence query on a port, a
controller rumble, a controller print at a row and column, and a sleep. -/
inductive Event where
  | query (port : Int)
  | rumble (pattern : String)
  | print (row : Nat) (col : Nat) (line : String)
  | delay (ms : Nat)
deriving DecidableEq

/-- True of rumble events. -/
def isRumbleEvent : Event → Bool
  | Event.rumble _ => true
  | _ => false

/-- True of print events. -/
def isPrintEvent : Event → Bool
  | Event.print _ _ _ => true
  | _ => false

/-- True of operator-feedback events: rumbles and prints. -/
def isFeedbackEvent (e : Event) : Bool :=
  isRumbleEvent e || isPrintEvent e

/-- True of delay events. -/
def isDelayEvent : Event → Bool
  | Event.delay _ => true
  | _ => false

namespace safety

/-- One pass of the inner for-loop of safety::task_check_devices over the
device list: query each device in order; on the first one not plugged in,
rumble "---", print the message at (0,0) and return 1. -/
def runScan (host : Host) : List Device → List Event × Option Nat
  | [] => ([], Option.none)
  | d :: rest =>
    if isPluggedIn host d.port then
      let r := runScan host rest
      (Event.query d.port :: r.1, r.2)
    else
      ([Event.query d.port, Event.rumble "---",
        Event.print 0 0 "DEVICE UNPLUGGED!!!"], Option.some 1)

/-- Translation of safety::task_check_devices: scan, and if the scan did
not return, delay 500 ms and scan again.  The while-true loop is given a
fuel bound; a run that exhausts its fuel is still Running (result none).
The host is indexed by scan number so device kinds may change between
scans. -/
def task_check_devices (host : Nat → Host) (devices : List Device) :
    Nat → List Event × Option Nat
  | 0 => ([], Option.none)
  | fuel + 1 =>
    let s := runScan (host 0) devices
    match s.2 with
    | Option.some v => (s.1, Option.some v)
    | Option.none =>
      let r := task_check_devices (fun t => host (t + 1)) devices fuel
      (s.1 ++ Event.delay 500 :: r.1, r.2)

end safety

/-- Modelled from the spec (section 4.3), for comparison with the source's
checkMotorGroup: validate-motor-group returns exactly the ports p of the
group with plugged_kind p distinct from motor or plugged_kind p in
\x7bnone, undefined\x7d, in input order. -/
def validateMotorGroupSpec (host : Host) (group : List Int) : List Int :=
  group.filter (fun p => !(safety.isMotor host p) || !(safety.isPluggedIn host p))

/-- Concatenation of a list of strings in order, used to state the shape
of the rendered report. -/
def concatAll : List String → String
  | [] => ""
  | s :: rest => s ++ concatAll rest

/-- A host reporting a motor at every port at every scan. -/
def hostAllMotor : Nat → Host := fun _ _ => DeviceType.motor

/-- A host reporting nothing plugged at any port. -/
def hostAllAbsent : Nat → Host := fun _ _ => DeviceType.none

/-- A host reporting a motor at port 1 and nothing elsewhere. -/
def hostMotorAt1 : Nat → Host :=
  fun _ port => if port = 1 then DeviceType.motor else DeviceType.none

/-- A host reporting motors everywhere at scan 0 and nothing plugged at
any port from scan 1 on. -/
def hostPresentThenAbsent : Nat → Host :=
  fun t _ => if t = 0 then DeviceType.motor else DeviceType.none

section Theorems

open safety

/-- C3: for every integer port p, is-present(p) returns true iff the host
query plugged_kind(p) returns a kind that is neither none nor undefined. -/
theorem isPluggedIn_iff_kind_present (host : Host) (p : Int) :
    isPluggedIn host p = true ↔
      (host p ≠ DeviceType.none ∧ host p ≠ DeviceType.undefined) := by
  simp [isPluggedIn]

/-- C7: kind-to-name is total: every value of the closed DeviceType
enumeration maps to its table name, and every synthesized value outside
the enumeration maps to "unknown". -/
theorem deviceType_to_string_total :
    deviceType_to_string DeviceType.none = "none"
    ∧ deviceType_to_string DeviceType.undefined = "undefined"
    ∧ deviceType_to_string DeviceType.motor = "motor"
    ∧ deviceType_to_string DeviceType.rotation = "rotation"
    ∧ deviceType_to_string DeviceType.imu = "imu"
    ∧ deviceType_to_string DeviceType.radio = "radio"
    ∧ deviceType_to_string DeviceType.distance = "distance"
    ∧ deviceType_to_string DeviceType.vision = "vision"
    ∧ deviceType_to_string DeviceType.adi = "adi"
    ∧ deviceType_to_string DeviceType.optical = "optical"
    ∧ deviceType_to_string DeviceType.gps = "gps"
    ∧ deviceType_to_string DeviceType.serial = "serial"
    ∧ ∀ n : Nat, deviceType_to_string (DeviceType.other n) = "unknown" :=
  ⟨rfl, rfl, rfl, rfl, rfl, rfl, rfl, rfl, rfl, rfl, rfl, rfl, fun _ => rfl⟩

/-- C8: each kind predicate answers true exactly when the host reports the
corresponding kind at the port. -/
theorem kind_predicates_iff (host : Host) (p : Int) :
    (isMotor host p = true ↔ host p = DeviceType.motor)
    ∧ (isImu host p = true ↔ host p = DeviceType.imu)
    ∧ (isRadio host p = true ↔ host p = DeviceType.radio)
    ∧ (isRotation host p = true ↔ host p = DeviceType.rotation) := by
  refine ⟨?_, ?_, ?_, ?_⟩ <;> simp [isMotor, isImu, isRadio, isRotation]

/-- C10: checkImu coincides with isImu for every host answer: the extra
is-plugged-in conjunct is redundant because the imu kind is neither none
nor undefined. -/
theorem checkImu_eq_isImu (host : Host) (p : Int) :
    checkImu host p = isImu host p := by
  cases h : host p <;> simp [checkImu, isImu, isPluggedIn, h]

/-- C6: checkDevices returns exactly the ports of the handles whose
plugged kind is none or undefined, that is whose is-present query returns
false, in input order. -/
theorem checkDevices_eq_filter (host : Host) (devices : List Device) :
    checkDevices host devices
      = (devices.filter (fun d => !(isPluggedIn host d.port))).map Device.port
    ∧ checkDevices host devices
      = (devices.filter (fun d =>
          (host d.port == DeviceType.none)
            || (host d.port == DeviceType.undefined))).map Device.port := by
  have h1 : checkDevices host devices
      = (devices.filter (fun d => !(isPluggedIn host d.port))).map Device.port := by
    induction devices with
    | nil => rfl
    | cons d rest ih =>
      by_cases hd : isPluggedIn host d.port
      · simp [checkDevices, List.filter_cons, hd, ih]
      · simp [checkDevices, List.filter_cons, hd, ih]
  refine ⟨h1, ?_⟩
  rw [h1]
  congr 1
  apply List.filter_congr
  intro d _
  simp [isPluggedIn]

/-- C5: the source's motor-group validator pushes each port of the group
once when its kind is not motor and, under the separate second branch,
once more when it is plugged in; consequently every plugged-in motor port
of the group appears in the result as a fault. -/
theorem checkMotorGroup_branches (host : Host) (group : List Int) :
    checkMotorGroup host group
      = group.flatMap (fun p =>
          (if !(isMotor host p) then [p] else [])
            ++ (if isPluggedIn host p then [p] else []))
    ∧ ∀ p ∈ group, isMotor host p = true → isPluggedIn host p = true →
        p ∈ checkMotorGroup host group := by
  have h1 : checkMotorGroup host group
      = group.flatMap (fun p =>
          (if !(isMotor host p) then [p] else [])
            ++ (if isPluggedIn host p then [p] else [])) := by
    induction group with
    | nil => rfl
    | cons q rest ih => simp [checkMotorGroup, ih, List.flatMap_cons]
  refine ⟨h1, fun p hp hm hplug => ?_⟩
  rw [h1]
  rw [List.mem_flatMap]
  exact ⟨p, hp, by simp [hm, hplug]⟩

/-- Witness for C5 at a concrete input: a host that reports a motor
everywhere, on the group with the single port 3. -/
theorem checkMotorGroup_branches_witness :
    checkMotorGroup (hostAllMotor 0) [3]
      = [3].flatMap (fun p =>
          (if !(isMotor (hostAllMotor 0) p) then [p] else [])
            ++ (if isPluggedIn (hostAllMotor 0) p then [p] else []))
    ∧ ∀ p ∈ [(3 : Int)], isMotor (hostAllMotor 0) p = true →
        isPluggedIn (hostAllMotor 0) p = true →
        p ∈ checkMotorGroup (hostAllMotor 0) [3] :=
  checkMotorGroup_branches (hostAllMotor 0) [3]

/-- C4 (code bug): on the group with the single port 1 and a host that
reports a motor at port 1, checkMotorGroup flags the valid motor, returning
the port, while the validator described by the spec and by the source's own
doc comment returns the empty list. -/
theorem checkMotorGroup_flags_valid_motor :
    checkMotorGroup (hostMotorAt1 0) [1] = [1]
    ∧ validateMotorGroupSpec (hostMotorAt1 0) [1] = []
    ∧ checkMotorGroup (hostMotorAt1 0) [1]
        ≠ validateMotorGroupSpec (hostMotorAt1 0) [1] := by
  refine ⟨by decide, by decide, by decide⟩

/-- C9: render-unplugged-report concatenates, in input order, one line per
handle currently present, each of the form kind-name, ": ", port and ",\n";
the result is empty when no handle is present. -/
theorem print_unplugged_devices_eq (host : Host) (devices : List Device) :
    print_unplugged_devices host devices
      = concatAll ((devices.filter (fun d => isPluggedIn host d.port)).map
          (fun d => deviceType_to_string (host d.port)
            ++ ": " ++ toString d.port ++ ",\n"))
    ∧ ((∀ d ∈ devices, isPluggedIn host d.port = false) →
        print_unplugged_devices host devices = "") := by
  have h1 : print_unplugged_devices host devices
      = concatAll ((devices.filter (fun d => isPluggedIn host d.port)).map
          (fun d => deviceType_to_string (host d.port)
            ++ ": " ++ toString d.port ++ ",\n")) := by
    induction devices with
    | nil => rfl
    | cons d rest ih =>
      by_cases hd : isPluggedIn host d.port
      · simp [print_unplugged_devices, List.filter_cons, hd, ih, concatAll]
      · simp [print_unplugged_devices, List.filter_cons, hd, ih]
  refine ⟨h1, fun hnone => ?_⟩
  rw [h1]
  have : devices.filter (fun d => isPluggedIn host d.port) = [] := by
    rw [List.filter_eq_nil_iff]
    intro d hd
    simp [hnone d hd]
  simp [this, concatAll]

/-- Witness for C9 at a concrete input: a host with a motor at port 1 only,
over handles at ports 1 and 2; only the present handle at port 1 yields a
line, and the empty-case implication is instantiated. -/
theorem print_unplugged_devices_eq_witness :
    print_unplugged_devices (hostMotorAt1 0) [⟨1⟩, ⟨2⟩]
      = concatAll (([⟨1⟩, ⟨2⟩] : List Device).filter
          (fun d => isPluggedIn (hostMotorAt1 0) d.port) |>.map
          (fun d => deviceType_to_string (hostMotorAt1 0 d.port)
            ++ ": " ++ toString d.port ++ ",\n"))
    ∧ ((∀ d ∈ ([⟨1⟩, ⟨2⟩] : List Device),
          isPluggedIn (hostMotorAt1 0) d.port = false) →
        print_unplugged_devices (hostMotorAt1 0) [⟨1⟩, ⟨2⟩] = "") :=
  print_unplugged_devices_eq (hostMotorAt1 0) [⟨1⟩, ⟨2⟩]

/-- A scan over devices that are all plugged in queries each port in order
and does not return. -/
theorem runScan_all_present (host : Host) (devices : List Device)
    (h : ∀ d ∈ devices, isPluggedIn host d.port = true) :
    runScan host devices
      = (devices.map (fun d => Event.query d.port), Option.none) := by
  induction devices with
  | nil => rfl
  | cons d rest ih =>
    have hd : isPluggedIn host d.port = true := h d (by simp)
    have hrest : ∀ e ∈ rest, isPluggedIn host e.port = true :=
      fun e he => h e (by simp [he])
    simp [runScan, hd, ih hrest]

/-- A scan whose first absent device is d queries the ports before d and
the port of d, emits the rumble and the print, and returns 1; the devices
after d are not queried. -/
theorem runScan_first_absent (host : Host) (pre post : List Device) (d : Device)
    (hpre : ∀ e ∈ pre, isPluggedIn host e.port = true)
    (hd : isPluggedIn host d.port = false) :
    runScan host (pre ++ d :: post)
      = (pre.map (fun e => Event.query e.port)
          ++ [Event.query d.port, Event.rumble "---",
              Event.print 0 0 "DEVICE UNPLUGGED!!!"], Option.some 1) := by
  induction pre with
  | nil => simp [runScan, hd]
  | cons e rest ih =>
    have he : isPluggedIn host e.port = true := hpre e (by simp)
    have hrest : ∀ x ∈ rest, isPluggedIn host x.port = true :=
      fun x hx => hpre x (by simp [hx])
    simp [runScan, he, ih hrest]

/-- Query events mapped from a device list contain no event satisfying a
predicate that is false on queries. -/
theorem countP_query_map_eq_zero (l : List Device) (f : Event → Bool)
    (hf : ∀ q : Int, f (Event.query q) = false) :
    (l.map fun e => Event.query e.port).countP f = 0 := by
  rw [List.countP_eq_zero]
  intro a ha
  rcases List.mem_map.mp ha with ⟨e, _, rfl⟩
  simp [hf]

/-- Query events mapped from a device list are removed whole by a filter
whose predicate is false on queries. -/
theorem filter_query_map_eq_nil (l : List Device) (f : Event → Bool)
    (hf : ∀ q : Int, f (Event.query q) = false) :
    (l.map fun e => Event.query e.port).filter f = [] := by
  rw [List.filter_eq_nil_iff]
  intro a ha
  rcases List.mem_map.mp ha with ⟨e, _, rfl⟩
  simp [hf]

/-- Events of clean scans are free of any event class that queries and
delays do not belong to. -/
theorem countP_flatten_replicate_eq_zero (t : Nat) (block : List Event)
    (f : Event → Bool) (hb : block.countP f = 0) :
    ((List.replicate t block).flatten).countP f = 0 := by
  induction t with
  | zero => rfl
  | succ n ih =>
    simp [List.replicate_succ, List.flatten_cons, List.countP_append, hb, ih]

/-- A run whose scans before scan t are all-present and whose scan t has
first absent device d performs t clean scans, each a full round of queries
followed by the 500 ms delay, then the queries of the ports before d and
of d, the rumble and the print, and returns 1. -/
theorem task_run_events_trip (pre post : List Device) (d : Device) :
    ∀ (t fuel : Nat) (host : Nat → Host), t < fuel →
    (∀ u, u < t → ∀ e ∈ pre ++ d :: post, isPluggedIn (host u) e.port = true) →
    (∀ e ∈ pre, isPluggedIn (host t) e.port = true) →
    isPluggedIn (host t) d.port = false →
    task_check_devices host (pre ++ d :: post) fuel
      = ((List.replicate t ((pre ++ d :: post).map (fun e => Event.query e.port)
            ++ [Event.delay 500])).flatten
          ++ pre.map (fun e => Event.query e.port)
          ++ [Event.query d.port, Event.rumble "---",
              Event.print 0 0 "DEVICE UNPLUGGED!!!"], Option.some 1) := by
  intro t
  induction t with
  | zero =>
    intro fuel host hfuel _ hpre hd
    obtain ⟨f, rfl⟩ : ∃ f, fuel = f + 1 := ⟨fuel - 1, by omega⟩
    have hscan := runScan_first_absent (host 0) pre post d hpre hd
    simp [task_check_devices, hscan]
  | succ u ih =>
    intro fuel host hfuel hbefore hpre hd
    obtain ⟨f, rfl⟩ : ∃ f, fuel = f + 1 := ⟨fuel - 1, by omega⟩
    have hall : ∀ e ∈ pre ++ d :: post, isPluggedIn (host 0) e.port = true :=
      hbefore 0 (Nat.succ_pos u)
    have hscan := runScan_all_present (host 0) _ hall
    have ihh := ih f (fun v => host (v + 1)) (by omega)
      (fun v hv => hbefore (v + 1) (by omega)) hpre hd
    simp [task_check_devices, hscan, ihh, List.replicate_succ,
      List.flatten_cons]

/-- C1 (amended): in every run whose first absent device in WatchSet order
is d at port p, observed at scan t after t all-present scans, the
supervisor performs the t clean scans with one 500 ms delay each, then the
queries up to and including p, emits exactly one rumble "---" and exactly
one print (0,0) "DEVICE UNPLUGGED!!!", and terminates with the fixed
result 1; the devices after d, however many are absent, are not queried
and leave no trace in the output, and the result value does not depend
on p. -/
theorem task_check_devices_trip (host : Nat → Host)
    (devices pre post : List Device) (d : Device) (p : Int) (t fuel : Nat)
    (hdev : devices = pre ++ d :: post)
    (hbefore : ∀ u, u < t → ∀ e ∈ devices, isPluggedIn (host u) e.port = true)
    (hpre : ∀ e ∈ pre, isPluggedIn (host t) e.port = true)
    (hd : isPluggedIn (host t) d.port = false)
    (hp : d.port = p)
    (hfuel : t < fuel) :
    task_check_devices host devices fuel
      = ((List.replicate t (devices.map (fun e => Event.query e.port)
            ++ [Event.delay 500])).flatten
          ++ pre.map (fun e => Event.query e.port)
          ++ [Event.query p, Event.rumble "---",
              Event.print 0 0 "DEVICE UNPLUGGED!!!"], Option.some 1)
    ∧ (task_check_devices host devices fuel).1.countP isRumbleEvent = 1
    ∧ (task_check_devices host devices fuel).1.countP isPrintEvent = 1 := by
  subst hdev
  subst hp
  have h1 := task_run_events_trip pre post d t fuel host hfuel hbefore hpre hd
  have hblockR : ((pre ++ d :: post).map (fun e => Event.query e.port)
      ++ [Event.delay 500]).countP isRumbleEvent = 0 := by
    simp [List.countP_append, List.countP_cons, List.countP_nil,
      countP_query_map_eq_zero (pre ++ d :: post) isRumbleEvent (fun _ => rfl),
      isRumbleEvent]
  have hblockP : ((pre ++ d :: post).map (fun e => Event.query e.port)
      ++ [Event.delay 500]).countP isPrintEvent = 0 := by
    simp [List.countP_append, List.countP_cons, List.countP_nil,
      countP_query_map_eq_zero (pre ++ d :: post) isPrintEvent (fun _ => rfl),
      isPrintEvent]
  refine ⟨h1, ?_, ?_⟩
  · rw [h1]
    simp [List.countP_append, List.countP_cons, List.countP_nil,
      countP_flatten_replicate_eq_zero t _ isRumbleEvent hblockR,
      countP_query_map_eq_zero pre isRumbleEvent (fun _ => rfl),
      isRumbleEvent]
  · rw [h1]
    simp [List.countP_append, List.countP_cons, List.countP_nil,
      countP_flatten_replicate_eq_zero t _ isPrintEvent hblockP,
      countP_query_map_eq_zero pre isPrintEvent (fun _ => rfl),
      isPrintEvent]

/-- Witness for C1 at a concrete input: both devices present at scan 0,
everything absent from scan 1 on; the run performs one clean scan of ports
1 and 2 with its 500 ms delay and then trips on port 1 at scan 1, with one
rumble and one print. -/
theorem task_check_devices_trip_witness :
    task_check_devices hostPresentThenAbsent [⟨1⟩, ⟨2⟩] 2
      = ((List.replicate 1 ((([⟨1⟩, ⟨2⟩] : List Device)).map
            (fun e => Event.query e.port) ++ [Event.delay 500])).flatten
          ++ ([] : List Device).map (fun e => Event.query e.port)
          ++ [Event.query 1, Event.rumble "---",
              Event.print 0 0 "DEVICE UNPLUGGED!!!"], Option.some 1)
    ∧ (task_check_devices hostPresentThenAbsent [⟨1⟩, ⟨2⟩] 2).1.countP
        isRumbleEvent = 1
    ∧ (task_check_devices hostPresentThenAbsent [⟨1⟩, ⟨2⟩] 2).1.countP
        isPrintEvent = 1 :=
  task_check_devices_trip hostPresentThenAbsent [⟨1⟩, ⟨2⟩] [] [⟨2⟩] ⟨1⟩ 1 1 2
    rfl (by decide) (by decide) (by decide) rfl (by decide)

/-- Counterexample to C1 as stated: two runs whose offending ports differ
(5 and 7) terminate with the same result value and the same operator
feedback, so the terminating result does not name the offending port. -/
theorem task_check_devices_result_not_naming_port :
    (task_check_devices hostAllAbsent [⟨5⟩] 1).2
        = (task_check_devices hostAllAbsent [⟨7⟩] 1).2
    ∧ (task_check_devices hostAllAbsent [⟨5⟩] 1).1.filter isFeedbackEvent
        = (task_check_devices hostAllAbsent [⟨7⟩] 1).1.filter isFeedbackEvent
    ∧ (5 : Int) ≠ 7 :=
  ⟨rfl, rfl, by decide⟩

/-- C2: while every watched device stays present the supervisor never
terminates and emits no feedback: for any number of scans, the result is
still Running (none), the output holds no rumble or print, and each of the
scans is followed by one 500 ms delay. -/
theorem task_check_devices_all_present (host : Nat → Host)
    (devices : List Device) (fuel : Nat)
    (h : ∀ t, ∀ d ∈ devices, isPluggedIn (host t) d.port = true) :
    (task_check_devices host devices fuel).2 = Option.none
    ∧ (task_check_devices host devices fuel).1.filter isFeedbackEvent = []
    ∧ (task_check_devices host devices fuel).1.countP isDelayEvent = fuel
    ∧ (task_check_devices host devices fuel).1.count (Event.delay 500) = fuel := by
  induction fuel generalizing host with
  | zero => exact ⟨rfl, rfl, rfl, rfl⟩
  | succ n ih =>
    have hscan := runScan_all_present (host 0) devices (h 0)
    have hshift : ∀ t, ∀ d ∈ devices,
        isPluggedIn ((fun t => host (t + 1)) t) d.port = true :=
      fun t => h (t + 1)
    have hr := ih (fun t => host (t + 1)) hshift
    have h1 : task_check_devices host devices (n + 1)
        = ((devices.map fun d => Event.query d.port)
            ++ Event.delay 500
              :: (task_check_devices (fun t => host (t + 1)) devices n).1,
           (task_check_devices (fun t => host (t + 1)) devices n).2) := by
      simp [task_check_devices, hscan]
    refine ⟨?_, ?_, ?_, ?_⟩
    · rw [h1]
      exact hr.1
    · rw [h1]
      simp [List.filter_append,
        filter_query_map_eq_nil devices isFeedbackEvent (fun _ => rfl),
        isFeedbackEvent, isRumbleEvent, isPrintEvent, hr.2.1]
    · rw [h1]
      simp [List.countP_append, List.countP_cons,
        countP_query_map_eq_zero devices isDelayEvent (fun _ => rfl),
        isDelayEvent, hr.2.2.1]
    · rw [h1]
      have hq : (devices.map fun d => Event.query d.port).count
          (Event.delay 500) = 0 := by
        rw [List.count_eq_zero]
        simp
      simp [List.count_append, List.count_cons, hq, hr.2.2.2]

/-- Witness for C2 at a concrete input: a host reporting motors forever at
ports 1 and 10; after three scans the supervisor is still Running, has
emitted nothing, and has slept three times for 500 ms. -/
theorem task_check_devices_all_present_witness :
    (task_check_devices hostAllMotor [⟨1⟩, ⟨10⟩] 3).2 = Option.none
    ∧ (task_check_devices hostAllMotor [⟨1⟩, ⟨10⟩] 3).1.filter
        isFeedbackEvent = []
    ∧ (task_check_devices hostAllMotor [⟨1⟩, ⟨10⟩] 3).1.countP
        isDelayEvent = 3
    ∧ (task_check_devices hostAllMotor [⟨1⟩, ⟨10⟩] 3).1.count
        (Event.delay 500) = 3 :=
  task_check_devices_all_present hostAllMotor [⟨1⟩, ⟨10⟩] 3
    (by
      intro t d hd
      fin_cases hd <;> rfl)

end Theorems
